import Mathlib

/-
  Verification of aws/internal/service/eks/waiter/waiter.go.

  The waiter functions in that file configure a generic polling engine
  (resource.StateChangeConf from terraform-plugin-sdk, external to the
  repository) and post-process (classify) its outcome.  The engine itself is
  modelled from the spec (section 4.1); every classification step and every
  Pending/Target configuration below is translated directly from waiter.go.

  Machine representation notes:
  - Go *string fields become Option String; aws.StringValue is the nil-safe
    dereference (none becomes ""). Go *struct pointer fields become Option;
    dereferencing such a field through none models a nil-pointer panic and is
    tracked with an Option-valued result.
  - Wall-clock time is discretised into poll cycles: Timeout is a budget of
    poll cycles, the cancellation signal is a predicate on the cycle index.
  - Only the payload fields that waiter.go reads are modelled.
-/

namespace EksWaiter

/- String constants from aws-sdk-go service/eks (external SDK, fixed values). -/

def ClusterStatusCreating : String := "CREATING"

def ClusterStatusActive : String := "ACTIVE"

def ClusterStatusDeleting : String := "DELETING"

def FargateProfileStatusCreating : String := "CREATING"

def FargateProfileStatusActive : String := "ACTIVE"

def FargateProfileStatusDeleting : String := "DELETING"

def NodegroupStatusCreating : String := "CREATING"

def NodegroupStatusActive : String := "ACTIVE"

def NodegroupStatusDeleting : String := "DELETING"

def UpdateStatusInProgress : String := "InProgress"

def UpdateStatusSuccessful : String := "Successful"

def UpdateStatusFailed : String := "Failed"

def UpdateStatusCancelled : String := "Cancelled"

def AddonStatusCreating : String := "CREATING"

def AddonStatusActive : String := "ACTIVE"

def AddonStatusCreateFailed : String := "CREATE_FAILED"

def AddonStatusDeleting : String := "DELETING"

def ErrCodeResourceNotFoundException : String := "ResourceNotFoundException"

/-- Models aws.StringValue: nil-safe dereference of a Go *string. -/
def stringValue : Option String → String
  | none => ""
  | some s => s

/- Payload types (aws-sdk-go service/eks), restricted to the fields read in
   waiter.go. -/

structure AddonIssue where
  Code : Option String
  Message : Option String
deriving DecidableEq, Repr

structure AddonHealth where
  Issues : List AddonIssue
deriving DecidableEq, Repr

/-- eks.Addon; Health is a pointer field (*AddonHealth), hence Option. -/
structure Addon where
  Status : Option String
  Health : Option AddonHealth
deriving DecidableEq, Repr

structure ErrorDetail where
  ErrorCode : Option String
  ErrorMessage : Option String
deriving DecidableEq, Repr

structure Update where
  Status : Option String
  Errors : List ErrorDetail
deriving DecidableEq, Repr

structure Cluster where
  Status : Option String
deriving DecidableEq, Repr

structure FargateProfile where
  Status : Option String
deriving DecidableEq, Repr

structure Nodegroup where
  Status : Option String
deriving DecidableEq, Repr

/-- Errors a wait can surface: the engine-produced kinds of spec section 7,
plus errorf for errors the waiter functions build with fmt.Errorf.
timeout and unexpectedState carry a LastError slot (plugin-sdk errors have a
LastError field that tfresource.SetLastError fills in). -/
inductive WaiterError where
  | timeout (lastState : String) (lastError : Option String)
  | unexpectedState (state : String) (lastError : Option String)
  | probeFailure (code : String) (message : String)
  | cancelled
  | errorf (message : String)
deriving DecidableEq, Repr

/-- One probe (refresh) outcome: an observed object with its state
discriminator, or a failed lookup carrying an AWS error code and message. -/
inductive ProbeResult (α : Type) where
  | ok (obj : α) (state : String)
  | err (code : String) (message : String)
deriving DecidableEq, Repr

/-- resource.StateChangeConf, the per-wait configuration built by every
waiter function: pending states, target states, refresh (probe) function and
timeout (here a budget of poll cycles; waiter.go pins wall-clock durations).
The refresh function is indexed by the poll cycle. -/
structure StateChangeConf (α : Type) where
  Pending : List String
  Target : List String
  Refresh : Nat → ProbeResult α
  Timeout : Nat

/-- Result of a completed wait: final object, final error, and the number of
probes that were issued. -/
structure WaitRun (α : Type) where
  obj : Option α
  error : Option WaiterError
  probes : Nat
deriving DecidableEq, Repr

/-- Modelled from the spec: the Waiter Engine loop of section 4.1
(resource.StateChangeConf.WaitForStateContext from terraform-plugin-sdk, not
in src).  fuel is the remaining poll-cycle budget, i the current cycle index
(also the number of probes issued so far), lastState the most recent
discriminator.  Each iteration checks the cancellation signal, then the
deadline is enforced by fuel, then one probe is issued and classified:
not-found probe failure with empty Target is success-by-disappearance,
any other probe failure propagates, a state in Target (or any non-pending
state when Target is empty) is success with the object, a pending state
sleeps and continues, anything else is an unexpected-state failure. -/
def waitAux {α : Type} (conf : StateChangeConf α) (ctx : Nat → Bool) :
    Nat → Nat → String → WaitRun α
  | 0, i, lastState => ⟨none, some (.timeout lastState none), i⟩
  | fuel + 1, i, _lastState =>
    if ctx i then ⟨none, some .cancelled, i⟩
    else
      match conf.Refresh i with
      | .err code message =>
        if code == ErrCodeResourceNotFoundException && conf.Target.isEmpty then
          ⟨none, none, i + 1⟩
        else
          ⟨none, some (.probeFailure code message), i + 1⟩
      | .ok obj state =>
        if conf.Target.contains state then ⟨some obj, none, i + 1⟩
        else if conf.Target.isEmpty && !conf.Pending.contains state then
          ⟨some obj, none, i + 1⟩
        else if conf.Pending.contains state then
          waitAux conf ctx fuel (i + 1) state
        else ⟨some obj, some (.unexpectedState state none), i + 1⟩

/-- Modelled from the spec: WaitForStateContext runs the engine loop with the
caller's cancellation signal. -/
def waitForStateContext {α : Type} (conf : StateChangeConf α)
    (ctx : Nat → Bool) : WaitRun α :=
  waitAux conf ctx conf.Timeout 0 ""

/-- Modelled from the spec: WaitForState is WaitForStateContext with the
background context, a signal that is never cancelled. -/
def waitForState {α : Type} (conf : StateChangeConf α) : WaitRun α :=
  waitForStateContext conf (fun _ => false)

/-- Models tfawserr.ErrCodeEquals: true iff the error is an AWS API error
carrying the given code; engine-synthesised errors carry no AWS code. -/
def errCodeEquals (e : WaiterError) (code : String) : Bool :=
  match e with
  | .probeFailure c _ => c == code
  | _ => false

/-- Modelled from the spec: tfresource.SetLastError (repository code not in
src): enriches a terminal engine error with the aggregated error detail,
filling the LastError slot of a timeout or unexpected-state error when it is
still empty, and leaving every other error unchanged. -/
def setLastError : Option WaiterError → Option String → Option WaiterError
  | some (.timeout s none), lastErr => some (.timeout s lastErr)
  | some (.unexpectedState s none), lastErr => some (.unexpectedState s lastErr)
  | e, _ => e

/-- Models the shared loop body of EksAddonCreated and
EksAddonUpdateSuccessful: for each sub-error (read through the given code and
message accessors) append one line rendered with
fmt.Sprintf of the text Error d colon Code colon s slash Message colon s,
where the index is 1-based (loop index i plus one). -/
def detailedErrorLines {α : Type} (code message : α → Option String) :
    Nat → List α → List String
  | _, [] => []
  | i, e :: rest =>
    ("Error " ++ toString (i + 1) ++ ": Code: " ++ stringValue (code e) ++
      " / Message: " ++ stringValue (message e)) ::
      detailedErrorLines code message (i + 1) rest

/-- Models the go-multierror entry built by ClusterUpdateSuccessful and
NodegroupUpdateSuccessful for each sub-error: fmt.Errorf with format
percent-s colon percent-s applied to the error code and message. -/
def updateMultierrorEntries (errors : List ErrorDetail) : List String :=
  errors.map (fun e => stringValue e.ErrorCode ++ ": " ++ stringValue e.ErrorMessage)

/-- Models hashicorp/go-multierror ListFormatFunc, the default rendering of
a multierror: a count line followed by one tab-bulleted line per error. -/
def multierrorListFormat : List String → String
  | [e] => "1 error occurred:\n\t* " ++ e ++ "\n\n"
  | es =>
    toString es.length ++ " errors occurred:\n\t" ++
      String.intercalate "\n\t" (es.map (fun e => "* " ++ e)) ++ "\n\n"

/-- Models multierror.Append over Errors followed by errs.ErrorOrNil():
nil when there are no sub-errors, otherwise the rendered multierror. -/
def multierrorErrorOrNil (errors : List ErrorDetail) : Option String :=
  match errors with
  | [] => none
  | es => some (multierrorListFormat (updateMultierrorEntries es))

/-- Models the trailing type-assertion block shared by the waiters:
if the raw engine output holds a value of the expected payload type return
it with the engine error, otherwise return nil with the engine error.  In
the typed embedding the raw output is already Option-valued, so the
assertion succeeds exactly when an object is present. -/
def typeAssertReturn {α : Type} (outputRaw : Option α)
    (err : Option WaiterError) : Option α × Option WaiterError :=
  match outputRaw with
  | some output => (some output, err)
  | none => (none, err)

/- Waiter functions from waiter.go.  Each conn-plus-identifiers pair of the
Go signature only feeds the construction of the refresh (status) function,
which lives outside src; the embeddings therefore take the refresh function
itself.  Names that appear in rendered messages are kept as parameters. -/

/-- Configuration built by ClusterCreated. -/
def clusterCreatedStateConf (refresh : Nat → ProbeResult Cluster)
    (timeout : Nat) : StateChangeConf Cluster :=
  { Pending := [ClusterStatusCreating]
    Target := [ClusterStatusActive]
    Refresh := refresh
    Timeout := timeout }

def clusterCreatedRun (refresh : Nat → ProbeResult Cluster) (timeout : Nat) :
    WaitRun Cluster :=
  waitForState (clusterCreatedStateConf refresh timeout)

def ClusterCreated (refresh : Nat → ProbeResult Cluster) (timeout : Nat) :
    Option Cluster × Option WaiterError :=
  let run := clusterCreatedRun refresh timeout
  typeAssertReturn run.obj run.error

/-- Configuration built by ClusterDeleted. -/
def clusterDeletedStateConf (refresh : Nat → ProbeResult Cluster)
    (timeout : Nat) : StateChangeConf Cluster :=
  { Pending := [ClusterStatusActive, ClusterStatusDeleting]
    Target := []
    Refresh := refresh
    Timeout := timeout }

def clusterDeletedRun (refresh : Nat → ProbeResult Cluster) (timeout : Nat) :
    WaitRun Cluster :=
  waitForState (clusterDeletedStateConf refresh timeout)

def ClusterDeleted (refresh : Nat → ProbeResult Cluster) (timeout : Nat) :
    Option Cluster × Option WaiterError :=
  let run := clusterDeletedRun refresh timeout
  typeAssertReturn run.obj run.error

/-- Classification block of ClusterUpdateSuccessful: when the observed update
status is Cancelled or Failed, build one multierror entry per sub-error and
attach the aggregate to the engine error via SetLastError; then return the
object with the (possibly enriched) error. -/
def clusterUpdateClassify (outputRaw : Option Update)
    (err : Option WaiterError) : Option Update × Option WaiterError :=
  match outputRaw with
  | some output =>
    if stringValue output.Status == UpdateStatusCancelled
        || stringValue output.Status == UpdateStatusFailed then
      (some output, setLastError err (multierrorErrorOrNil output.Errors))
    else
      (some output, err)
  | none => (none, err)

/-- Configuration built by ClusterUpdateSuccessful. -/
def clusterUpdateStateConf (refresh : Nat → ProbeResult Update)
    (timeout : Nat) : StateChangeConf Update :=
  { Pending := [UpdateStatusInProgress]
    Target := [UpdateStatusSuccessful]
    Refresh := refresh
    Timeout := timeout }

def clusterUpdateRun (refresh : Nat → ProbeResult Update) (timeout : Nat) :
    WaitRun Update :=
  waitForState (clusterUpdateStateConf refresh timeout)

def ClusterUpdateSuccessful (refresh : Nat → ProbeResult Update)
    (timeout : Nat) : Option Update × Option WaiterError :=
  let run := clusterUpdateRun refresh timeout
  clusterUpdateClassify run.obj run.error

/-- Configuration built by FargateProfileCreated. -/
def fargateProfileCreatedStateConf (refresh : Nat → ProbeResult FargateProfile)
    (timeout : Nat) : StateChangeConf FargateProfile :=
  { Pending := [FargateProfileStatusCreating]
    Target := [FargateProfileStatusActive]
    Refresh := refresh
    Timeout := timeout }

def fargateProfileCreatedRun (refresh : Nat → ProbeResult FargateProfile)
    (timeout : Nat) : WaitRun FargateProfile :=
  waitForState (fargateProfileCreatedStateConf refresh timeout)

def FargateProfileCreated (refresh : Nat → ProbeResult FargateProfile)
    (timeout : Nat) : Option FargateProfile × Option WaiterError :=
  let run := fargateProfileCreatedRun refresh timeout
  typeAssertReturn run.obj run.error

/-- Configuration built by FargateProfileDeleted. -/
def fargateProfileDeletedStateConf (refresh : Nat → ProbeResult FargateProfile)
    (timeout : Nat) : StateChangeConf FargateProfile :=
  { Pending := [FargateProfileStatusActive, FargateProfileStatusDeleting]
    Target := []
    Refresh := refresh
    Timeout := timeout }

def fargateProfileDeletedRun (refresh : Nat → ProbeResult FargateProfile)
    (timeout : Nat) : WaitRun FargateProfile :=
  waitForState (fargateProfileDeletedStateConf refresh timeout)

def FargateProfileDeleted (refresh : Nat → ProbeResult FargateProfile)
    (timeout : Nat) : Option FargateProfile × Option WaiterError :=
  let run := fargateProfileDeletedRun refresh timeout
  typeAssertReturn run.obj run.error

/-- Configuration built by NodegroupCreated. -/
def nodegroupCreatedStateConf (refresh : Nat → ProbeResult Nodegroup)
    (timeout : Nat) : StateChangeConf Nodegroup :=
  { Pending := [NodegroupStatusCreating]
    Target := [NodegroupStatusActive]
    Refresh := refresh
    Timeout := timeout }

def nodegroupCreatedRun (refresh : Nat → ProbeResult Nodegroup)
    (timeout : Nat) : WaitRun Nodegroup :=
  waitForState (nodegroupCreatedStateConf refresh timeout)

def NodegroupCreated (refresh : Nat → ProbeResult Nodegroup) (timeout : Nat) :
    Option Nodegroup × Option WaiterError :=
  let run := nodegroupCreatedRun refresh timeout
  typeAssertReturn run.obj run.error

/-- Configuration built by NodegroupDeleted. -/
def nodegroupDeletedStateConf (refresh : Nat → ProbeResult Nodegroup)
    (timeout : Nat) : StateChangeConf Nodegroup :=
  { Pending := [NodegroupStatusActive, NodegroupStatusDeleting]
    Target := []
    Refresh := refresh
    Timeout := timeout }

def nodegroupDeletedRun (refresh : Nat → ProbeResult Nodegroup)
    (timeout : Nat) : WaitRun Nodegroup :=
  waitForState (nodegroupDeletedStateConf refresh timeout)

def NodegroupDeleted (refresh : Nat → ProbeResult Nodegroup) (timeout : Nat) :
    Option Nodegroup × Option WaiterError :=
  let run := nodegroupDeletedRun refresh timeout
  typeAssertReturn run.obj run.error

/-- Classification block of NodegroupUpdateSuccessful (same code shape as
ClusterUpdateSuccessful in the source). -/
def nodegroupUpdateClassify (outputRaw : Option Update)
    (err : Option WaiterError) : Option Update × Option WaiterError :=
  match outputRaw with
  | some output =>
    if stringValue output.Status == UpdateStatusCancelled
        || stringValue output.Status == UpdateStatusFailed then
      (some output, setLastError err (multierrorErrorOrNil output.Errors))
    else
      (some output, err)
  | none => (none, err)

/-- Configuration built by NodegroupUpdateSuccessful. -/
def nodegroupUpdateStateConf (refresh : Nat → ProbeResult Update)
    (timeout : Nat) : StateChangeConf Update :=
  { Pending := [UpdateStatusInProgress]
    Target := [UpdateStatusSuccessful]
    Refresh := refresh
    Timeout := timeout }

def nodegroupUpdateRun (refresh : Nat → ProbeResult Update) (timeout : Nat) :
    WaitRun Update :=
  waitForState (nodegroupUpdateStateConf refresh timeout)

def NodegroupUpdateSuccessful (refresh : Nat → ProbeResult Update)
    (timeout : Nat) : Option Update × Option WaiterError :=
  let run := nodegroupUpdateRun refresh timeout
  nodegroupUpdateClassify run.obj run.error

/-- Classification block of EksAddonCreated: when the observed addon status
is CREATE_FAILED, read addon.Health.Issues (a nil-pointer dereference when
Health is nil, modelled as none), render one detailed line per issue and
return the addon with a fmt.Errorf error; otherwise pass the addon and the
engine error through unchanged.  The outer Option is none exactly when the
code would panic on a nil Health. -/
def eksAddonCreatedClassify (addon : Addon) (err : Option WaiterError) :
    Option (Option Addon × Option WaiterError) :=
  if stringValue addon.Status == AddonStatusCreateFailed then
    match addon.Health with
    | none => none
    | some health =>
      some (some addon,
        some (.errorf ("creation not successful (" ++ stringValue addon.Status ++
          "): Errors:\n" ++
          String.intercalate "\n"
            (detailedErrorLines AddonIssue.Code AddonIssue.Message 0
              health.Issues))))
  else
    some (some addon, err)

/-- EksAddonCreated applied to a raw engine outcome (object and error), the
shape the code inspects after WaitForStateContext. -/
def eksAddonCreatedClassifyRaw (outputRaw : Option Addon)
    (err : Option WaiterError) :
    Option (Option Addon × Option WaiterError) :=
  match outputRaw with
  | some addon => eksAddonCreatedClassify addon err
  | none => some (none, err)

/-- Configuration built by EksAddonCreated: the Target set holds both the
success and the failure terminal state. -/
def eksAddonCreatedStateConf (refresh : Nat → ProbeResult Addon)
    (timeout : Nat) : StateChangeConf Addon :=
  { Pending := [AddonStatusCreating]
    Target := [AddonStatusActive, AddonStatusCreateFailed]
    Refresh := refresh
    Timeout := timeout }

def eksAddonCreatedRun (refresh : Nat → ProbeResult Addon) (timeout : Nat)
    (ctx : Nat → Bool) : WaitRun Addon :=
  waitForStateContext (eksAddonCreatedStateConf refresh timeout) ctx

/-- EksAddonCreated; clusterName and addonName only feed the probe in the
source (EksAddonStatus, outside src) and appear in no message. -/
def EksAddonCreated (refresh : Nat → ProbeResult Addon) (ctx : Nat → Bool)
    (clusterName addonName : String) (timeout : Nat) :
    Option (Option Addon × Option WaiterError) :=
  let _ := clusterName
  let _ := addonName
  let run := eksAddonCreatedRun refresh timeout ctx
  eksAddonCreatedClassifyRaw run.obj run.error

/-- Configuration built by EksAddonDeleted. -/
def eksAddonDeletedStateConf (refresh : Nat → ProbeResult Addon)
    (timeout : Nat) : StateChangeConf Addon :=
  { Pending := [AddonStatusActive, AddonStatusDeleting]
    Target := []
    Refresh := refresh
    Timeout := timeout }

def eksAddonDeletedRun (refresh : Nat → ProbeResult Addon) (timeout : Nat)
    (ctx : Nat → Bool) : WaitRun Addon :=
  waitForStateContext (eksAddonDeletedStateConf refresh timeout) ctx

/-- EksAddonDeleted: a wait error whose AWS code is
ResourceNotFoundException is converted to plain success (nil, nil); every
other outcome goes through the usual type-assertion return. -/
def EksAddonDeleted (refresh : Nat → ProbeResult Addon) (ctx : Nat → Bool)
    (clusterName addonName : String) (timeout : Nat) :
    Option Addon × Option WaiterError :=
  let _ := clusterName
  let _ := addonName
  let run := eksAddonDeletedRun refresh timeout ctx
  match run.error with
  | some e =>
    if errCodeEquals e ErrCodeResourceNotFoundException then (none, none)
    else typeAssertReturn run.obj run.error
  | none => typeAssertReturn run.obj run.error

/-- Classification block of EksAddonUpdateSuccessful: a wait error returns
(nil, err) at once; a missing payload returns (nil, nil) since err is nil
there; status Successful discards the payload and returns (nil, nil); any
other terminal status renders the detailed sub-error lines and returns the
update with a fmt.Errorf error naming cluster, addon, update id and status. -/
def eksAddonUpdateClassify (clusterName addonName updateID : String)
    (outputRaw : Option Update) (err : Option WaiterError) :
    Option Update × Option WaiterError :=
  match err with
  | some e => (none, some e)
  | none =>
    match outputRaw with
    | none => (none, none)
    | some update =>
      if stringValue update.Status == UpdateStatusSuccessful then (none, none)
      else
        (some update,
          some (.errorf ("EKS add-on (" ++ clusterName ++ ":" ++ addonName ++
            ") update (" ++ updateID ++ ") not successful (" ++
            stringValue update.Status ++ "): Errors:\n" ++
            String.intercalate "\n"
              (detailedErrorLines ErrorDetail.ErrorCode ErrorDetail.ErrorMessage
                0 update.Errors))))

/-- Configuration built by EksAddonUpdateSuccessful: all three terminal
update states are targets, deferring success and failure interpretation to
the classification block. -/
def eksAddonUpdateStateConf (refresh : Nat → ProbeResult Update)
    (timeout : Nat) : StateChangeConf Update :=
  { Pending := [UpdateStatusInProgress]
    Target := [UpdateStatusCancelled, UpdateStatusFailed, UpdateStatusSuccessful]
    Refresh := refresh
    Timeout := timeout }

def eksAddonUpdateRun (refresh : Nat → ProbeResult Update) (timeout : Nat)
    (ctx : Nat → Bool) : WaitRun Update :=
  waitForStateContext (eksAddonUpdateStateConf refresh timeout) ctx

def EksAddonUpdateSuccessful (refresh : Nat → ProbeResult Update)
    (ctx : Nat → Bool) (clusterName addonName updateID : String)
    (timeout : Nat) : Option Update × Option WaiterError :=
  let run := eksAddonUpdateRun refresh timeout ctx
  eksAddonUpdateClassify clusterName addonName updateID run.obj run.error

/-- Substring search over character lists: does the haystack contain the
pattern as a contiguous run. -/
def listHasSub (pat : List Char) : List Char → Bool
  | [] => pat.isPrefixOf []
  | c :: rest => pat.isPrefixOf (c :: rest) || listHasSub pat rest

/-- Substring search over strings: strHasSub hay pat is true iff pat occurs
contiguously in hay. -/
def strHasSub (hay pat : String) : Bool :=
  listHasSub pat.data hay.data

/- Helper lemmas about the engine. -/

/-- First probe already in the target set: the engine stops after exactly one
probe with the observed object and no error. -/
theorem waitForStateContext_first_target {α : Type} (conf : StateChangeConf α)
    (ctx : Nat → Bool) (obj : α) (state : String)
    (hr : conf.Refresh 0 = .ok obj state)
    (ht : conf.Target.contains state = true)
    (hc : ctx 0 = false) (hpos : 0 < conf.Timeout) :
    waitForStateContext conf ctx = ⟨some obj, none, 1⟩ := by
  obtain ⟨n, hn⟩ : ∃ n, conf.Timeout = n + 1 :=
    ⟨conf.Timeout - 1, by omega⟩
  have ht' : state ∈ conf.Target := by simpa using ht
  rw [waitForStateContext, hn]
  simp [waitAux, hc, hr, ht']

/-- First probe fails with the not-found code while the target set is empty:
the engine returns success-by-disappearance after one probe. -/
theorem waitForStateContext_notfound_empty_target {α : Type}
    (conf : StateChangeConf α) (ctx : Nat → Bool) (message : String)
    (hr : conf.Refresh 0 = .err ErrCodeResourceNotFoundException message)
    (ht : conf.Target = [])
    (hc : ctx 0 = false) (hpos : 0 < conf.Timeout) :
    waitForStateContext conf ctx = ⟨none, none, 1⟩ := by
  obtain ⟨n, hn⟩ : ∃ n, conf.Timeout = n + 1 :=
    ⟨conf.Timeout - 1, by omega⟩
  rw [waitForStateContext, hn]
  simp [waitAux, hc, hr, ht]

/-- First probe fails with the not-found code while the target set is not
empty: the engine propagates the probe failure. -/
theorem waitForStateContext_notfound_nonempty_target {α : Type}
    (conf : StateChangeConf α) (ctx : Nat → Bool) (message : String)
    (hr : conf.Refresh 0 = .err ErrCodeResourceNotFoundException message)
    (ht : conf.Target ≠ [])
    (hc : ctx 0 = false) (hpos : 0 < conf.Timeout) :
    waitForStateContext conf ctx =
      ⟨none, some (.probeFailure ErrCodeResourceNotFoundException message), 1⟩ := by
  obtain ⟨n, hn⟩ : ∃ n, conf.Timeout = n + 1 :=
    ⟨conf.Timeout - 1, by omega⟩
  have hT : conf.Target.isEmpty = false := by
    cases hE : conf.Target with
    | nil => exact absurd hE ht
    | cons a l => simp
  rw [waitForStateContext, hn]
  simp [waitAux, hc, hr, hT]

/-- The engine driven by the never-cancelled background signal cannot report
cancellation. -/
theorem waitAux_background_ne_cancelled {α : Type} (conf : StateChangeConf α) :
    ∀ (fuel i : Nat) (lastState : String),
      (waitAux conf (fun _ => false) fuel i lastState).error ≠
        some .cancelled := by
  intro fuel
  induction fuel with
  | zero => intro i lastState; simp [waitAux]
  | succ n ih =>
    intro i lastState
    simp only [waitAux, Bool.false_eq_true, if_false]
    split
    · split
      · simp
      · simp
    · split
      · simp
      · split
        · simp
        · split
          · exact ih (i + 1) _
          · simp

theorem waitForState_ne_cancelled {α : Type} (conf : StateChangeConf α) :
    (waitForState conf).error ≠ some .cancelled :=
  waitAux_background_ne_cancelled conf conf.Timeout 0 ""

/-- Cooperative cancellation in the engine: if the signal is down for the
first k cycles, each of those probes reports a pending (non-target) state,
and the signal is up at cycle k before the budget runs out, the wait stops
with the cancellation outcome after exactly k probes. -/
theorem waitAux_cancelled {α : Type} (conf : StateChangeConf α)
    (ctx : Nat → Bool) :
    ∀ (k fuel i : Nat) (lastState : String),
      (∀ j, j < k → ctx (i + j) = false) →
      ctx (i + k) = true →
      (∀ j, j < k → ∃ obj state, conf.Refresh (i + j) = .ok obj state ∧
        conf.Pending.contains state = true ∧
        conf.Target.contains state = false) →
      k < fuel →
      waitAux conf ctx fuel i lastState = ⟨none, some .cancelled, i + k⟩ := by
  intro k
  induction k with
  | zero =>
    intro fuel i lastState hno hyes hpend hlt
    cases fuel with
    | zero => omega
    | succ n =>
      have h0 : ctx i = true := by simpa using hyes
      simp [waitAux, h0]
  | succ k' ih =>
    intro fuel i lastState hno hyes hpend hlt
    cases fuel with
    | zero => omega
    | succ n =>
      have hci : ctx i = false := by simpa using hno 0 (by omega)
      obtain ⟨obj, state, hre, hp, htg⟩ := by simpa using hpend 0 (by omega)
      have hstep : waitAux conf ctx (n + 1) i lastState =
          waitAux conf ctx n (i + 1) state := by
        simp [waitAux, hci, hre, hp, htg]
      rw [hstep]
      have h1 : ∀ j, j < k' → ctx (i + 1 + j) = false := by
        intro j hj
        have := hno (j + 1) (by omega)
        simpa [Nat.add_assoc, Nat.add_comm 1 j] using this
      have h2 : ctx (i + 1 + k') = true := by
        have := hyes
        simpa [Nat.add_assoc, Nat.add_comm 1 k'] using this
      have h3 : ∀ j, j < k' → ∃ obj state,
          conf.Refresh (i + 1 + j) = .ok obj state ∧
          conf.Pending.contains state = true ∧
          conf.Target.contains state = false := by
        intro j hj
        have := hpend (j + 1) (by omega)
        simpa [Nat.add_assoc, Nat.add_comm 1 j] using this
      have := ih n (i + 1) state h1 h2 h3 (by omega)
      rw [this]
      congr 1
      omega

/-- Indexing the rendered detailed-error lines: the line at position j names
the 1-based index i0 + j + 1 and the code and message of the j-th sub-error. -/
theorem detailedErrorLines_getElem? {α : Type} (code message : α → Option String)
    (xs : List α) (i0 j : Nat) (e : α) (h : xs[j]? = some e) :
    (detailedErrorLines code message i0 xs)[j]? =
      some ("Error " ++ toString (i0 + j + 1) ++ ": Code: " ++
        stringValue (code e) ++ " / Message: " ++ stringValue (message e)) := by
  induction xs generalizing i0 j with
  | nil => simp at h
  | cons a rest ih =>
    cases j with
    | zero =>
      simp only [List.getElem?_cons_zero, Option.some.injEq] at h
      subst h
      simp [detailedErrorLines]
    | succ j' =>
      simp only [List.getElem?_cons_succ] at h
      have := ih (i0 + 1) j' h
      simp only [detailedErrorLines, List.getElem?_cons_succ, this]
      rw [show i0 + 1 + j' + 1 = i0 + (j' + 1) + 1 from by omega]

/-- C1: a "resource not found" probe outcome becomes a success result (nil
object, nil error) exactly when the wait's target-state set is empty.  For
every configuration with an empty target set, and for EksAddonDeleted in
particular, a not-found probe failure yields (nil, nil); for every
configuration with a non-empty target set, and for EksAddonCreated in
particular, the not-found probe failure is propagated to the caller as an
error. -/
theorem claim1_notfound_success_iff_empty_target :
    (∀ (α : Type) (conf : StateChangeConf α) (ctx : Nat → Bool) (m : String),
      conf.Target = [] →
      conf.Refresh 0 = .err ErrCodeResourceNotFoundException m →
      ctx 0 = false → 0 < conf.Timeout →
      waitForStateContext conf ctx = ⟨none, none, 1⟩)
    ∧ (∀ (refresh : Nat → ProbeResult Addon) (ctx : Nat → Bool)
        (c a : String) (t : Nat) (m : String),
      refresh 0 = ProbeResult.err ErrCodeResourceNotFoundException m →
      ctx 0 = false → 0 < t →
      EksAddonDeleted refresh ctx c a t = (none, none))
    ∧ (∀ (α : Type) (conf : StateChangeConf α) (ctx : Nat → Bool) (m : String),
      conf.Target ≠ [] →
      conf.Refresh 0 = .err ErrCodeResourceNotFoundException m →
      ctx 0 = false → 0 < conf.Timeout →
      waitForStateContext conf ctx =
        ⟨none, some (.probeFailure ErrCodeResourceNotFoundException m), 1⟩)
    ∧ (∀ (refresh : Nat → ProbeResult Addon) (ctx : Nat → Bool)
        (c a : String) (t : Nat) (m : String),
      refresh 0 = ProbeResult.err ErrCodeResourceNotFoundException m →
      ctx 0 = false → 0 < t →
      EksAddonCreated refresh ctx c a t =
        some (none, some (.probeFailure ErrCodeResourceNotFoundException m))) := by
  refine ⟨?_, ?_, ?_, ?_⟩
  · intro α conf ctx m hT hr hc hpos
    exact waitForStateContext_notfound_empty_target conf ctx m hr hT hc hpos
  · intro refresh ctx c a t m hr hc hpos
    have h := waitForStateContext_notfound_empty_target
      (eksAddonDeletedStateConf refresh t) ctx m hr rfl hc hpos
    simp [EksAddonDeleted, eksAddonDeletedRun, h, typeAssertReturn]
  · intro α conf ctx m hT hr hc hpos
    exact waitForStateContext_notfound_nonempty_target conf ctx m hr hT hc hpos
  · intro refresh ctx c a t m hr hc hpos
    have h := waitForStateContext_notfound_nonempty_target
      (eksAddonCreatedStateConf refresh t) ctx m hr
      (by simp [eksAddonCreatedStateConf]) hc hpos
    simp [EksAddonCreated, eksAddonCreatedRun, h, eksAddonCreatedClassifyRaw]

theorem claim1_witness :
    EksAddonDeleted
        (fun _ => ProbeResult.err ErrCodeResourceNotFoundException "no addon")
        (fun _ => false) "cl" "ad" 5 = (none, none)
    ∧ EksAddonCreated
        (fun _ => ProbeResult.err ErrCodeResourceNotFoundException "no addon")
        (fun _ => false) "cl" "ad" 5 =
      some (none,
        some (.probeFailure ErrCodeResourceNotFoundException "no addon")) :=
  ⟨claim1_notfound_success_iff_empty_target.2.1 _ _ "cl" "ad" 5 "no addon"
      rfl rfl (by decide),
    claim1_notfound_success_iff_empty_target.2.2.2 _ _ "cl" "ad" 5 "no addon"
      rfl rfl (by decide)⟩

/-- C3: a wait whose probe returns a state inside the configured target set
on the very first call stops after exactly one probe with that object and no
error; in particular this holds for the waits performed by ClusterCreated
and by EksAddonCreated, whose target set contains both ACTIVE and
CREATE_FAILED. -/
theorem claim3_first_probe_in_target_immediate :
    (∀ (α : Type) (conf : StateChangeConf α) (ctx : Nat → Bool) (obj : α)
        (state : String),
      conf.Refresh 0 = .ok obj state → conf.Target.contains state = true →
      ctx 0 = false → 0 < conf.Timeout →
      waitForStateContext conf ctx = ⟨some obj, none, 1⟩)
    ∧ (∀ (refresh : Nat → ProbeResult Cluster) (t : Nat) (c : Cluster),
      refresh 0 = ProbeResult.ok c ClusterStatusActive → 0 < t →
      clusterCreatedRun refresh t = ⟨some c, none, 1⟩ ∧
        ClusterCreated refresh t = (some c, none))
    ∧ (∀ (refresh : Nat → ProbeResult Addon) (t : Nat) (ctx : Nat → Bool)
        (addon : Addon),
      refresh 0 = ProbeResult.ok addon AddonStatusActive → ctx 0 = false →
      0 < t → eksAddonCreatedRun refresh t ctx = ⟨some addon, none, 1⟩)
    ∧ (∀ (refresh : Nat → ProbeResult Addon) (t : Nat) (ctx : Nat → Bool)
        (addon : Addon),
      refresh 0 = ProbeResult.ok addon AddonStatusCreateFailed →
      ctx 0 = false → 0 < t →
      eksAddonCreatedRun refresh t ctx = ⟨some addon, none, 1⟩) := by
  refine ⟨?_, ?_, ?_, ?_⟩
  · intro α conf ctx obj state hr ht hc hpos
    exact waitForStateContext_first_target conf ctx obj state hr ht hc hpos
  · intro refresh t c hr hpos
    have h := waitForStateContext_first_target
      (clusterCreatedStateConf refresh t) (fun _ => false) c ClusterStatusActive
      hr rfl rfl hpos
    constructor
    · exact h
    · simp [ClusterCreated, clusterCreatedRun, waitForState] at h ⊢
      simp [h, typeAssertReturn]
  · intro refresh t ctx addon hr hc hpos
    exact waitForStateContext_first_target
      (eksAddonCreatedStateConf refresh t) ctx addon AddonStatusActive
      hr rfl hc hpos
  · intro refresh t ctx addon hr hc hpos
    exact waitForStateContext_first_target
      (eksAddonCreatedStateConf refresh t) ctx addon AddonStatusCreateFailed
      hr rfl hc hpos

theorem claim3_witness :
    ClusterCreated (fun _ => ProbeResult.ok ⟨some "ACTIVE"⟩ ClusterStatusActive)
        7 = (some ⟨some "ACTIVE"⟩, none)
    ∧ eksAddonCreatedRun
        (fun _ => ProbeResult.ok ⟨some "CREATE_FAILED", none⟩
          AddonStatusCreateFailed) 7 (fun _ => false) =
      ⟨some ⟨some "CREATE_FAILED", none⟩, none, 1⟩ :=
  ⟨(claim3_first_probe_in_target_immediate.2.1 _ 7 ⟨some "ACTIVE"⟩ rfl
      (by decide)).2,
    claim3_first_probe_in_target_immediate.2.2.2 _ 7 _
      ⟨some "CREATE_FAILED", none⟩ rfl rfl (by decide)⟩

/-- C7: in every one of the eleven configurations built in the file, the
pending-state set and the target-state set are disjoint: no state string
appears in both Pending and Target. -/
theorem claim7_pending_target_disjoint :
    (∀ (r : Nat → ProbeResult Cluster) (t : Nat),
      ((clusterCreatedStateConf r t).Pending.all
        (fun s => !(clusterCreatedStateConf r t).Target.contains s)) = true)
    ∧ (∀ (r : Nat → ProbeResult Cluster) (t : Nat),
      ((clusterDeletedStateConf r t).Pending.all
        (fun s => !(clusterDeletedStateConf r t).Target.contains s)) = true)
    ∧ (∀ (r : Nat → ProbeResult Update) (t : Nat),
      ((clusterUpdateStateConf r t).Pending.all
        (fun s => !(clusterUpdateStateConf r t).Target.contains s)) = true)
    ∧ (∀ (r : Nat → ProbeResult FargateProfile) (t : Nat),
      ((fargateProfileCreatedStateConf r t).Pending.all
        (fun s => !(fargateProfileCreatedStateConf r t).Target.contains s)) = true)
    ∧ (∀ (r : Nat → ProbeResult FargateProfile) (t : Nat),
      ((fargateProfileDeletedStateConf r t).Pending.all
        (fun s => !(fargateProfileDeletedStateConf r t).Target.contains s)) = true)
    ∧ (∀ (r : Nat → ProbeResult Nodegroup) (t : Nat),
      ((nodegroupCreatedStateConf r t).Pending.all
        (fun s => !(nodegroupCreatedStateConf r t).Target.contains s)) = true)
    ∧ (∀ (r : Nat → ProbeResult Nodegroup) (t : Nat),
      ((nodegroupDeletedStateConf r t).Pending.all
        (fun s => !(nodegroupDeletedStateConf r t).Target.contains s)) = true)
    ∧ (∀ (r : Nat → ProbeResult Update) (t : Nat),
      ((nodegroupUpdateStateConf r t).Pending.all
        (fun s => !(nodegroupUpdateStateConf r t).Target.contains s)) = true)
    ∧ (∀ (r : Nat → ProbeResult Addon) (t : Nat),
      ((eksAddonCreatedStateConf r t).Pending.all
        (fun s => !(eksAddonCreatedStateConf r t).Target.contains s)) = true)
    ∧ (∀ (r : Nat → ProbeResult Addon) (t : Nat),
      ((eksAddonDeletedStateConf r t).Pending.all
        (fun s => !(eksAddonDeletedStateConf r t).Target.contains s)) = true)
    ∧ (∀ (r : Nat → ProbeResult Update) (t : Nat),
      ((eksAddonUpdateStateConf r t).Pending.all
        (fun s => !(eksAddonUpdateStateConf r t).Target.contains s)) = true) :=
  ⟨fun _ _ => rfl, fun _ _ => rfl, fun _ _ => rfl, fun _ _ => rfl,
    fun _ _ => rfl, fun _ _ => rfl, fun _ _ => rfl, fun _ _ => rfl,
    fun _ _ => rfl, fun _ _ => rfl, fun _ _ => rfl⟩


/-- C5: when the terminal state equals the designated success discriminator,
the classification passes the object through unmodified; the exception is
EksAddonUpdateSuccessful, which on status Successful discards the payload
and returns the bare success marker (nil object, nil error). -/
theorem claim5_success_passthrough :
    (∀ (addon : Addon) (err : Option WaiterError),
      stringValue addon.Status = AddonStatusActive →
      eksAddonCreatedClassify addon err = some (some addon, err))
    ∧ (∀ (u : Update) (err : Option WaiterError),
      stringValue u.Status = UpdateStatusSuccessful →
      clusterUpdateClassify (some u) err = (some u, err))
    ∧ (∀ (u : Update) (err : Option WaiterError),
      stringValue u.Status = UpdateStatusSuccessful →
      nodegroupUpdateClassify (some u) err = (some u, err))
    ∧ (∀ (c a i : String) (u : Update),
      stringValue u.Status = UpdateStatusSuccessful →
      eksAddonUpdateClassify c a i (some u) none = (none, none)) := by
  refine ⟨?_, ?_, ?_, ?_⟩
  . intro addon err h
    simp [eksAddonCreatedClassify, h, AddonStatusActive, AddonStatusCreateFailed]
  . intro u err h
    simp [clusterUpdateClassify, h, UpdateStatusSuccessful,
      UpdateStatusCancelled, UpdateStatusFailed]
  . intro u err h
    simp [nodegroupUpdateClassify, h, UpdateStatusSuccessful,
      UpdateStatusCancelled, UpdateStatusFailed]
  . intro c a i u h
    simp [eksAddonUpdateClassify, h, UpdateStatusSuccessful]

theorem claim5_witness :
    eksAddonCreatedClassify ⟨some "ACTIVE", none⟩ none =
      some (some ⟨some "ACTIVE", none⟩, none)
    ∧ eksAddonUpdateClassify "cl" "ad" "uid"
        (some ⟨some "Successful", []⟩) none = (none, none) :=
  ⟨claim5_success_passthrough.1 ⟨some "ACTIVE", none⟩ none rfl,
    claim5_success_passthrough.2.2.2 "cl" "ad" "uid" ⟨some "Successful", []⟩ rfl⟩

/-- C8: the classification step of every waiter is a pure function and is
idempotent on success outcomes: applying it twice to the same success
outcome yields the same result as applying it once.  The trailing
type-assertion step of the simple waiters is idempotent on every outcome. -/
theorem claim8_classify_idempotent :
    (∀ (alpha : Type) (o : Option alpha) (e : Option WaiterError),
      typeAssertReturn (typeAssertReturn o e).1 (typeAssertReturn o e).2 =
        typeAssertReturn o e)
    ∧ (∀ (u : Update), stringValue u.Status = UpdateStatusSuccessful →
      clusterUpdateClassify (clusterUpdateClassify (some u) none).1
          (clusterUpdateClassify (some u) none).2 =
        clusterUpdateClassify (some u) none)
    ∧ (∀ (u : Update), stringValue u.Status = UpdateStatusSuccessful →
      nodegroupUpdateClassify (nodegroupUpdateClassify (some u) none).1
          (nodegroupUpdateClassify (some u) none).2 =
        nodegroupUpdateClassify (some u) none)
    ∧ (∀ (addon : Addon), stringValue addon.Status = AddonStatusActive →
      (eksAddonCreatedClassifyRaw (some addon) none).bind
          (fun p => eksAddonCreatedClassifyRaw p.1 p.2) =
        eksAddonCreatedClassifyRaw (some addon) none)
    ∧ (∀ (c a i : String) (u : Update),
      stringValue u.Status = UpdateStatusSuccessful →
      eksAddonUpdateClassify c a i
          (eksAddonUpdateClassify c a i (some u) none).1
          (eksAddonUpdateClassify c a i (some u) none).2 =
        eksAddonUpdateClassify c a i (some u) none) := by
  refine ⟨?_, ?_, ?_, ?_, ?_⟩
  . intro alpha o e
    cases o <;> simp [typeAssertReturn]
  . intro u h
    simp [clusterUpdateClassify, h, UpdateStatusSuccessful,
      UpdateStatusCancelled, UpdateStatusFailed]
  . intro u h
    simp [nodegroupUpdateClassify, h, UpdateStatusSuccessful,
      UpdateStatusCancelled, UpdateStatusFailed]
  . intro addon h
    simp [eksAddonCreatedClassifyRaw, eksAddonCreatedClassify, h,
      AddonStatusActive, AddonStatusCreateFailed]
  . intro c a i u h
    simp [eksAddonUpdateClassify, h, UpdateStatusSuccessful]

theorem claim8_witness :
    clusterUpdateClassify
        (clusterUpdateClassify (some ⟨some "Successful", []⟩) none).1
        (clusterUpdateClassify (some ⟨some "Successful", []⟩) none).2 =
      clusterUpdateClassify (some ⟨some "Successful", []⟩) none :=
  claim8_classify_idempotent.2.1 ⟨some "Successful", []⟩ rfl

/-- C9: the CREATE_FAILED branch of EksAddonCreated reads
addon.Health.Issues unconditionally: with a non-nil Health record the
classification never faults, with a nil Health record it faults exactly when
the status is CREATE_FAILED, and outside that branch Health is never read. -/
theorem claim9_health_deref :
    (∀ (addon : Addon) (h : AddonHealth) (err : Option WaiterError),
      addon.Health = some h → eksAddonCreatedClassify addon err ≠ none)
    ∧ (∀ (addon : Addon) (err : Option WaiterError),
      addon.Health = none →
      stringValue addon.Status = AddonStatusCreateFailed →
      eksAddonCreatedClassify addon err = none)
    ∧ (∀ (addon : Addon) (err : Option WaiterError),
      addon.Health = none →
      stringValue addon.Status ≠ AddonStatusCreateFailed →
      eksAddonCreatedClassify addon err ≠ none) := by
  refine ⟨?_, ?_, ?_⟩
  . intro addon h err hH
    unfold eksAddonCreatedClassify
    rw [hH]
    split <;> simp
  . intro addon err hH hs
    simp [eksAddonCreatedClassify, hH, hs]
  . intro addon err hH hs
    have hb : (stringValue addon.Status == AddonStatusCreateFailed) = false :=
      beq_eq_false_iff_ne.mpr hs
    simp [eksAddonCreatedClassify, hb]

theorem claim9_witness :
    eksAddonCreatedClassify
        ⟨some "CREATE_FAILED", some ⟨[]⟩⟩ none ≠ none
    ∧ eksAddonCreatedClassify ⟨some "CREATE_FAILED", none⟩ none = none :=
  ⟨claim9_health_deref.1 ⟨some "CREATE_FAILED", some ⟨[]⟩⟩ ⟨[]⟩ none rfl,
    claim9_health_deref.2.1 ⟨some "CREATE_FAILED", none⟩ none rfl rfl⟩

/-- C10: reaching the failure terminal state with zero sub-errors still
yields a non-nil error together with the terminal payload object, for both
EksAddonCreated and EksAddonUpdateSuccessful; the message then carries an
empty error list after the "Errors:" line. -/
theorem claim10_failure_without_suberrors_still_error :
    (∀ (addon : Addon) (err : Option WaiterError),
      addon.Status = some AddonStatusCreateFailed →
      addon.Health = some ⟨[]⟩ →
      eksAddonCreatedClassify addon err =
        some (some addon,
          some (.errorf "creation not successful (CREATE_FAILED): Errors:\n")))
    ∧ (∀ (c a i : String) (u : Update),
      u.Status = some UpdateStatusFailed → u.Errors = [] →
      eksAddonUpdateClassify c a i (some u) none =
        (some u,
          some (.errorf ("EKS add-on (" ++ c ++ ":" ++ a ++ ") update (" ++ i
            ++ ") not successful (" ++ "Failed" ++ "): Errors:\n"))))
    ∧ (∀ (c a i : String) (u : Update),
      u.Status = some UpdateStatusCancelled → u.Errors = [] →
      eksAddonUpdateClassify c a i (some u) none =
        (some u,
          some (.errorf ("EKS add-on (" ++ c ++ ":" ++ a ++ ") update (" ++ i
            ++ ") not successful (" ++ "Cancelled" ++ "): Errors:\n")))) := by
  refine ⟨?_, ?_, ?_⟩
  . intro addon err hs hh
    obtain ⟨st, hl⟩ := addon
    simp only at hs hh
    subst hs; subst hh
    rfl
  . intro c a i u hs he
    obtain ⟨st, es⟩ := u
    simp only at hs he
    subst hs; subst he
    simp only [eksAddonUpdateClassify, stringValue, detailedErrorLines,
      UpdateStatusFailed, UpdateStatusSuccessful]
    rw [show ("\n".intercalate ([] : List String)) = "" from rfl]
    simp
  . intro c a i u hs he
    obtain ⟨st, es⟩ := u
    simp only at hs he
    subst hs; subst he
    simp only [eksAddonUpdateClassify, stringValue, detailedErrorLines,
      UpdateStatusCancelled, UpdateStatusSuccessful]
    rw [show ("\n".intercalate ([] : List String)) = "" from rfl]
    simp

theorem claim10_witness :
    eksAddonCreatedClassify ⟨some "CREATE_FAILED", some ⟨[]⟩⟩ none =
      some (some ⟨some "CREATE_FAILED", some ⟨[]⟩⟩,
        some (.errorf "creation not successful (CREATE_FAILED): Errors:\n"))
    ∧ eksAddonUpdateClassify "cl" "ad" "uid" (some ⟨some "Failed", []⟩)
        none =
      (some ⟨some "Failed", []⟩,
        some (.errorf ("EKS add-on (" ++ "cl" ++ ":" ++ "ad" ++ ") update ("
          ++ "uid" ++ ") not successful (" ++ "Failed" ++ "): Errors:\n"))) :=
  ⟨claim10_failure_without_suberrors_still_error.1
      ⟨some "CREATE_FAILED", some ⟨[]⟩⟩ none rfl rfl,
    claim10_failure_without_suberrors_still_error.2.1 "cl" "ad" "uid"
      ⟨some "Failed", []⟩ rfl rfl⟩

/- Example payloads for the C2 statements. -/

def claim2SubErrors : List ErrorDetail :=
  [⟨some "E1", some "boom"⟩, ⟨some "E2", some "bad"⟩]

def claim2Update : Update := ⟨some "Failed", claim2SubErrors⟩

def claim2Addon : Addon :=
  ⟨some "CREATE_FAILED",
    some ⟨[⟨some "E1", some "boom"⟩, ⟨some "E2", some "bad"⟩]⟩⟩

/-- C2 counterexample: the claim fails for ClusterUpdateSuccessful.  On the
sub-errors [(E1, boom), (E2, bad)] its classification attaches the
go-multierror aggregate, whose rendered message does not contain the entry
"Error 1: Code: E1 / Message: boom" that the claim requires of every
sub-error-aggregating waiter. -/
theorem claim2_counterexample :
    clusterUpdateClassify (some claim2Update)
        (some (.unexpectedState "Failed" none)) =
      (some claim2Update,
        some (.unexpectedState "Failed"
          (some "2 errors occurred:\n\t* E1: boom\n\t* E2: bad\n\n")))
    ∧ strHasSub "2 errors occurred:\n\t* E1: boom\n\t* E2: bad\n\n"
        "Error 1: Code: E1 / Message: boom" = false :=
  ⟨by decide, by decide⟩

/-- C2 (amended): EksAddonCreated and EksAddonUpdateSuccessful render one
entry per sub-error in encounter order, 1-indexed and newline-separated, in
the form "Error i: Code: c / Message: m"; ClusterUpdateSuccessful and
NodegroupUpdateSuccessful also aggregate one entry per sub-error in
encounter order, with code and message preserved, but render each entry as
"code: message" inside the go-multierror list format instead. -/
theorem claim2_amended :
    (∀ (α : Type) (code message : α → Option String) (xs : List α) (j : Nat)
        (e : α), xs[j]? = some e →
      (detailedErrorLines code message 0 xs)[j]? =
        some ("Error " ++ toString (j + 1) ++ ": Code: " ++
          stringValue (code e) ++ " / Message: " ++ stringValue (message e)))
    ∧ (∀ (errors : List ErrorDetail) (j : Nat) (e : ErrorDetail),
      errors[j]? = some e →
      (updateMultierrorEntries errors)[j]? =
        some (stringValue e.ErrorCode ++ ": " ++ stringValue e.ErrorMessage))
    ∧ eksAddonCreatedClassify claim2Addon none =
        some (some claim2Addon,
          some (.errorf "creation not successful (CREATE_FAILED): Errors:\nError 1: Code: E1 / Message: boom\nError 2: Code: E2 / Message: bad"))
    ∧ eksAddonUpdateClassify "cl" "ad" "uid" (some claim2Update) none =
        (some claim2Update,
          some (.errorf "EKS add-on (cl:ad) update (uid) not successful (Failed): Errors:\nError 1: Code: E1 / Message: boom\nError 2: Code: E2 / Message: bad"))
    ∧ clusterUpdateClassify (some claim2Update)
        (some (.unexpectedState "Failed" none)) =
      (some claim2Update,
        some (.unexpectedState "Failed"
          (some "2 errors occurred:\n\t* E1: boom\n\t* E2: bad\n\n")))
    ∧ nodegroupUpdateClassify (some claim2Update)
        (some (.unexpectedState "Failed" none)) =
      (some claim2Update,
        some (.unexpectedState "Failed"
          (some "2 errors occurred:\n\t* E1: boom\n\t* E2: bad\n\n"))) := by
  refine ⟨?_, ?_, by decide, by decide, by decide, by decide⟩
  . intro α code message xs j e h
    have := detailedErrorLines_getElem? code message xs 0 j e h
    simpa using this
  . intro errors j e h
    simp [updateMultierrorEntries, h]

theorem claim2_witness :
    (detailedErrorLines AddonIssue.Code AddonIssue.Message 0
        [(⟨some "E1", some "boom"⟩ : AddonIssue), ⟨some "E2", some "bad"⟩])[1]? =
      some ("Error " ++ toString (1 + 1) ++ ": Code: " ++
        stringValue (some "E2") ++ " / Message: " ++ stringValue (some "bad")) :=
  claim2_amended.1 AddonIssue AddonIssue.Code AddonIssue.Message
    [⟨some "E1", some "boom"⟩, ⟨some "E2", some "bad"⟩] 1
    ⟨some "E2", some "bad"⟩ rfl

/- Example payload for the C4 statements. -/

def claim4Addon : Addon :=
  ⟨some "CREATE_FAILED", some ⟨[⟨some "E1", some "boom"⟩]⟩⟩

def claim4Message : String :=
  "creation not successful (CREATE_FAILED): Errors:\nError 1: Code: E1 / Message: boom"

/-- C4 counterexample: the claim fails for EksAddonCreated.  Run with
cluster name "tf-cluster" and addon name "vpc-cni", its aggregated failure
message carries neither the resource kind nor either name: it is only the
observed status string followed by the sub-error lines. -/
theorem claim4_counterexample :
    EksAddonCreated (fun _ => ProbeResult.ok claim4Addon "CREATE_FAILED")
        (fun _ => false) "tf-cluster" "vpc-cni" 5 =
      some (some claim4Addon, some (.errorf claim4Message))
    ∧ strHasSub claim4Message "vpc-cni" = false
    ∧ strHasSub claim4Message "tf-cluster" = false
    ∧ strHasSub claim4Message "EKS add-on" = false :=
  ⟨by decide, by decide, by decide, by decide⟩

/-- C4 (amended): only EksAddonUpdateSuccessful prefixes its aggregated
failure message with full identifying context (resource kind, cluster and
addon name, update identifier and observed status); EksAddonCreated prefixes
only the observed status string; ClusterUpdateSuccessful and
NodegroupUpdateSuccessful attach the bare sub-error aggregate to the engine
error with no kind, name or update-id context of their own. -/
theorem claim4_amended :
    (∀ (c a i : String) (u : Update),
      stringValue u.Status ≠ UpdateStatusSuccessful →
      ∃ rest, eksAddonUpdateClassify c a i (some u) none =
        (some u, some (.errorf ("EKS add-on (" ++ c ++ ":" ++ a ++
          ") update (" ++ i ++ ") not successful (" ++ stringValue u.Status ++
          "): Errors:\n" ++ rest))))
    ∧ (∀ (addon : Addon) (h : AddonHealth) (err : Option WaiterError),
      stringValue addon.Status = AddonStatusCreateFailed →
      addon.Health = some h →
      ∃ rest, eksAddonCreatedClassify addon err =
        some (some addon, some (.errorf ("creation not successful (" ++
          stringValue addon.Status ++ "): Errors:\n" ++ rest))))
    ∧ (∀ (u : Update) (s : String),
      stringValue u.Status = UpdateStatusFailed →
      clusterUpdateClassify (some u) (some (.unexpectedState s none)) =
        (some u, some (.unexpectedState s (multierrorErrorOrNil u.Errors))))
    ∧ (∀ (u : Update) (s : String),
      stringValue u.Status = UpdateStatusFailed →
      nodegroupUpdateClassify (some u) (some (.unexpectedState s none)) =
        (some u, some (.unexpectedState s (multierrorErrorOrNil u.Errors)))) := by
  refine ⟨?_, ?_, ?_, ?_⟩
  . intro c a i u hne
    have hb : (stringValue u.Status == UpdateStatusSuccessful) = false :=
      beq_eq_false_iff_ne.mpr hne
    exact ⟨String.intercalate "\n"
      (detailedErrorLines ErrorDetail.ErrorCode ErrorDetail.ErrorMessage 0
        u.Errors), by simp [eksAddonUpdateClassify, hb]⟩
  . intro addon hlth err hs hh
    exact ⟨String.intercalate "\n"
      (detailedErrorLines AddonIssue.Code AddonIssue.Message 0 hlth.Issues),
      by simp [eksAddonCreatedClassify, hs, hh]⟩
  . intro u s hs
    simp [clusterUpdateClassify, hs, setLastError, UpdateStatusFailed,
      UpdateStatusCancelled]
  . intro u s hs
    simp [nodegroupUpdateClassify, hs, setLastError, UpdateStatusFailed,
      UpdateStatusCancelled]

theorem claim4_witness :
    ∃ rest, eksAddonUpdateClassify "cl" "ad" "uid"
        (some ⟨some "Failed", []⟩) none =
      (some ⟨some "Failed", []⟩,
        some (.errorf ("EKS add-on (" ++ "cl" ++ ":" ++ "ad" ++
          ") update (" ++ "uid" ++ ") not successful (" ++
          stringValue (some "Failed") ++ "): Errors:\n" ++ rest))) :=
  claim4_amended.1 "cl" "ad" "uid" ⟨some "Failed", []⟩ (by decide)

/- Example probe for the C6 statements: a resource that stays pending. -/

def claim6Probe : Nat → ProbeResult Cluster :=
  fun _ => .ok ⟨some "CREATING"⟩ "CREATING"

/-- C6 counterexample: the claim fails for ClusterCreated (and the other
WaitForState-based waiters).  ClusterCreated runs its wait with the
background, never-cancelled signal: with an always-pending probe and a
budget of two cycles it returns a TimeoutError after issuing both probes and
can never return the cancellation outcome, whereas the same configuration
driven by a raised cancellation signal would stop at once with the
cancellation outcome and zero probes. -/
theorem claim6_counterexample :
    ClusterCreated claim6Probe 2 = (none, some (.timeout "CREATING" none))
    ∧ (clusterCreatedRun claim6Probe 2).probes = 2
    ∧ (clusterCreatedRun claim6Probe 2).error ≠ some .cancelled
    ∧ waitForStateContext (clusterCreatedStateConf claim6Probe 2)
        (fun _ => true) = ⟨none, some .cancelled, 0⟩ :=
  ⟨by decide, by decide, by decide, by decide⟩

/-- C6 (amended): the engine supports cooperative cancellation — a signal
raised at cycle k after k pending probes stops the wait with the
cancellation outcome, distinct from TimeoutError, after exactly k probes —
and the three EksAddon waiters, which pass the caller's signal through,
surface that outcome; the WaitForState-based waiters run the engine on the
never-cancelled background signal and can never report cancellation. -/
theorem claim6_amended :
    (∀ (α : Type) (conf : StateChangeConf α) (ctx : Nat → Bool) (k : Nat),
      (∀ j, j < k → ctx j = false) → ctx k = true →
      (∀ j, j < k → ∃ obj state, conf.Refresh j = .ok obj state ∧
        conf.Pending.contains state = true ∧
        conf.Target.contains state = false) →
      k < conf.Timeout →
      waitForStateContext conf ctx = ⟨none, some .cancelled, k⟩)
    ∧ (∀ (s : String) (le : Option String),
      WaiterError.cancelled ≠ WaiterError.timeout s le)
    ∧ (∀ (α : Type) (conf : StateChangeConf α),
      (waitForState conf).error ≠ some .cancelled)
    ∧ (∀ (refresh : Nat → ProbeResult Addon) (ctx : Nat → Bool)
        (c a : String) (t : Nat), ctx 0 = true → 0 < t →
      EksAddonCreated refresh ctx c a t = some (none, some .cancelled))
    ∧ (∀ (refresh : Nat → ProbeResult Addon) (ctx : Nat → Bool)
        (c a : String) (t : Nat), ctx 0 = true → 0 < t →
      EksAddonDeleted refresh ctx c a t = (none, some .cancelled))
    ∧ (∀ (refresh : Nat → ProbeResult Update) (ctx : Nat → Bool)
        (c a u : String) (t : Nat), ctx 0 = true → 0 < t →
      EksAddonUpdateSuccessful refresh ctx c a u t =
        (none, some .cancelled)) := by
  refine ⟨?_, ?_, ?_, ?_, ?_, ?_⟩
  . intro α conf ctx k h1 h2 h3 h4
    have := waitAux_cancelled conf ctx k conf.Timeout 0 ""
      (by intro j hj; simpa using h1 j hj) (by simpa using h2)
      (by intro j hj; simpa using h3 j hj) h4
    simpa [waitForStateContext] using this
  . intro s le
    simp
  . intro α conf
    exact waitForState_ne_cancelled conf
  . intro refresh ctx c a t hc ht
    obtain ⟨n, hn⟩ : ∃ n, t = n + 1 := ⟨t - 1, by omega⟩
    subst hn
    have hrun : eksAddonCreatedRun refresh (n + 1) ctx =
        ⟨none, some .cancelled, 0⟩ := by
      simp [eksAddonCreatedRun, waitForStateContext, eksAddonCreatedStateConf,
        waitAux, hc]
    simp [EksAddonCreated, hrun, eksAddonCreatedClassifyRaw]
  . intro refresh ctx c a t hc ht
    obtain ⟨n, hn⟩ : ∃ n, t = n + 1 := ⟨t - 1, by omega⟩
    subst hn
    have hrun : eksAddonDeletedRun refresh (n + 1) ctx =
        ⟨none, some .cancelled, 0⟩ := by
      simp [eksAddonDeletedRun, waitForStateContext, eksAddonDeletedStateConf,
        waitAux, hc]
    simp [EksAddonDeleted, hrun, errCodeEquals, typeAssertReturn]
  . intro refresh ctx c a u t hc ht
    obtain ⟨n, hn⟩ : ∃ n, t = n + 1 := ⟨t - 1, by omega⟩
    subst hn
    have hrun : eksAddonUpdateRun refresh (n + 1) ctx =
        ⟨none, some .cancelled, 0⟩ := by
      simp [eksAddonUpdateRun, waitForStateContext, eksAddonUpdateStateConf,
        waitAux, hc]
    simp [EksAddonUpdateSuccessful, hrun, eksAddonUpdateClassify]

theorem claim6_witness :
    EksAddonCreated
        (fun _ => ProbeResult.ok ⟨some "CREATING", none⟩ "CREATING")
        (fun _ => true) "cl" "ad" 3 = some (none, some .cancelled) :=
  claim6_amended.2.2.2.1 _ _ "cl" "ad" 3 rfl (by decide)

end EksWaiter
